import Mathlib

/-!
Verification of the MicroOcpp (ArduinoOcpp) core against its specification.
Shallow embedding of the transaction record, connection adapter, clock and
coordinator behaviour, with theorems checking the stated properties.
-/

namespace ArduinoOcpp

/-! ## Timestamp data model (from Core/Time.h, class Timestamp)

Internal representation per the source: initial values correspond to UNIX
time 0; January corresponds to month 0 and the first day in a month is day 0.
-/

structure Timestamp where
  year : Int := 1970
  month : Int := 0
  day : Int := 0
  hour : Int := 0
  minute : Int := 0
  second : Int := 0
deriving DecidableEq, Repr

def MIN_TIME : Timestamp := {}

/-! ## Scalar time (from Core/Time.h)

otime_t is a signed 32-bit integer; OTIME_MAX is INT32_MAX. INFINITY_THLD is
the upper limiter for the valid time range, 400 days before the year-2038
rollover of int32 seconds.
-/

def OTIME_MAX : Int := 2147483647

def INFINITY_THLD : Int := OTIME_MAX - 400 * 24 * 3600

/-! ## Transaction record (from Tasks/Transactions/Transaction.h)

Field-for-field embedding of the classes RpcSync, ClientTransactionStart,
ServerTransactionStart, TransactionStart, ClientTransactionStop,
TransactionStop, ChargingSession and Transaction, with the default member
initializers of the source. The C++ reference to the ConnectorTransactionStore
context is omitted: it carries no transaction state.
-/

structure RpcSync where
  requested : Bool := false
  confirmed : Bool := false
deriving DecidableEq, Repr

def RpcSync.isRequested (r : RpcSync) : Bool := r.requested

def RpcSync.confirm (r : RpcSync) : RpcSync := { r with confirmed := true }

def RpcSync.isConfirmed (r : RpcSync) : Bool := r.confirmed

def RpcSync.isCompleted (r : RpcSync) : Bool := r.isRequested && r.isConfirmed

structure ClientTransactionStart where
  timestamp : Timestamp := MIN_TIME
  meter : Int := -1
  reservationId : Int := -1
deriving DecidableEq, Repr

structure ServerTransactionStart where
  transactionId : Int := -1
deriving DecidableEq, Repr

structure TransactionStart where
  rpc : RpcSync := {}
  client : ClientTransactionStart := {}
  server : ServerTransactionStart := {}
deriving DecidableEq, Repr

structure ClientTransactionStop where
  idTag : String := ""
  timestamp : Timestamp := MIN_TIME
  meter : Int := -1
  reason : String := ""
deriving DecidableEq, Repr

structure TransactionStop where
  rpc : RpcSync := {}
  client : ClientTransactionStop := {}
deriving DecidableEq, Repr

structure ChargingSession where
  idTag : String := ""
  authorized : Bool := false
  deauthorized : Bool := false
  timestamp : Timestamp := MIN_TIME
  txProfileId : Int := -1
  active : Bool := true
deriving DecidableEq, Repr

structure Transaction where
  session : ChargingSession := {}
  start : TransactionStart := {}
  stop : TransactionStop := {}
  connectorId : Nat := 0
  txNr : Nat := 0
  silent : Bool := false
deriving DecidableEq, Repr

def Transaction.isAborted (t : Transaction) : Bool :=
  !t.start.rpc.requested && !t.session.active

def Transaction.isCompleted (t : Transaction) : Bool := t.stop.rpc.isConfirmed

def Transaction.isPreparing (t : Transaction) : Bool :=
  t.session.active && !t.start.rpc.isRequested

def Transaction.isRunning (t : Transaction) : Bool :=
  t.start.rpc.isRequested && !t.stop.rpc.isRequested

def Transaction.isActive (t : Transaction) : Bool := t.session.active

def Transaction.endSession (t : Transaction) : Transaction :=
  { t with session := { t.session with active := false } }

/-! ## Scalar-time interpretation

The threshold INFINITY_THLD is defined in Core/Time.h. The code that compares
scalars against it (Time.cpp) is not part of the sources at hand, so the
interpretation of a scalar is modelled from the spec. -/

/-- Modelled from the spec: Time.cpp, which consumes INFINITY_THLD, is missing
from the sources; per the spec, a scalar above the threshold means
"infinity/invalid". -/
def scalarIsInfinity (s : Int) : Bool := INFINITY_THLD < s

/-! ## NumberOfConnectors registration (from ChargeControlCommon.cpp)

The constructor declares the configuration key NumberOfConnectors with the
value of the C++ expression `numConn >= 1 ? numConn - 1 : 0` where numConn is
an unsigned int. -/

def numberOfConnectorsValue (numConn : Nat) : Nat :=
  if 1 ≤ numConn then numConn - 1 else 0

/-! ## Echo socket (from Core/Connection.cpp, OcppEchoSocket) -/

structure OcppEchoSocket where
  connected : Bool := true
  receiveTXT : Option (String → Bool) := none
  lastRecv : Nat := 0

/-- Result of one sendTXT call: the updated socket, the returned Bool, and the
message handed to the receive callback, if any. -/
structure EchoSendResult where
  socket : OcppEchoSocket
  returned : Bool
  delivered : Option String

def OcppEchoSocket.sendTXT (s : OcppEchoSocket) (out : String) (tick_ms : Nat) :
    EchoSendResult :=
  if !s.connected then
    { socket := s, returned := true, delivered := none }
  else
    match s.receiveTXT with
    | some callback =>
        { socket := { s with lastRecv := tick_ms },
          returned := callback out,
          delivered := some out }
    | none => { socket := s, returned := false, delivered := none }

/-! ## WebSocket client event handler (from Core/Connection.cpp,
OcppClientSocket::setReceiveTXTcallback)

The lambda installed via wsock->onEvent decides, per event type, whether the
captured lastRecv is set to the current monotonic tick. Only the lastRecv
effect is state; logging is ignored. -/

inductive WStype where
  | DISCONNECTED
  | CONNECTED
  | TEXT
  | BIN
  | PING
  | PONG
  | FRAGMENT_TEXT_START
deriving DecidableEq, Repr

def clientSocketOnEvent (callback : String → Bool) (lastRecv tick_ms : Nat)
    (t : WStype) (payload : String) : Nat :=
  match t with
  | .DISCONNECTED => lastRecv
  | .CONNECTED => tick_ms
  | .TEXT => if callback payload then tick_ms else lastRecv
  | .BIN => lastRecv
  | .PING => tick_ms
  | .PONG => tick_ms
  | .FRAGMENT_TEXT_START => lastRecv

/-! ## Pre-boot transaction release (Transaction Coordinator)

The coordinator sources are not part of the sources at hand; only the test
suite exercising them is. The release step performed on the first clock-valid
moment after connection is therefore modelled from the spec. Ticks are
monotonic milliseconds; wall timestamps are scalar seconds. -/

/-- Modelled from the spec: an unreleased boundary timestamp is either already
wall-clock anchored, anchored to a monotonic tick (pre-boot event), or lost
because the tick anchor was not persisted across a reboot. -/
inductive TsAnchor where
  | wall (scalar : Int)
  | tick (event_tick : Nat)
  | lost
deriving DecidableEq, Repr

/-- Modelled from the spec: a transaction pending release, reduced to its two
boundary timestamps; stopAnchor is none while the transaction is still
running (no stop boundary recorded yet). -/
structure PendingTx where
  startAnchor : TsAnchor
  stopAnchor : Option TsAnchor
deriving DecidableEq, Repr

/-- Boundary RPC as emitted to the server, reduced to its timestamp. -/
inductive BoundaryRpc where
  | startTx (timestamp : Int)
  | stopTx (timestamp : Int)
deriving DecidableEq, Repr

/-- Modelled from the spec: rewriting of a tick-anchored timestamp to wall
time on the first clock-valid moment, clock_set_ts − (set_tick − event_tick)
/ 1000, with ticks in milliseconds and division truncating as in C. -/
def backdate (clock_set_ts : Int) (set_tick event_tick : Nat) : Int :=
  clock_set_ts - ((set_tick - event_tick) / 1000 : Nat)

/-- Modelled from the spec: resolve one pending boundary anchor to a wall
timestamp, given the clock-set scalar and tick. A lost anchor has no wall
timestamp. -/
def resolveAnchor (clock_set_ts : Int) (set_tick : Nat) : TsAnchor → Option Int
  | .wall scalar => some scalar
  | .tick event_tick => some (backdate clock_set_ts set_tick event_tick)
  | .lost => none

/-- Modelled from the spec: the release step of the Transaction Coordinator on
the first clock-valid moment after connection. A transaction whose start
timestamp is unrecoverable is dropped with no RPC. Otherwise StartTransaction
is emitted with the resolved start timestamp; if a stop boundary exists its
timestamp is resolved the same way, except that a lost stop timestamp is
replaced by start + 1 (the minimum positive delta). The Bool is true iff a
running transaction remains after the step. -/
def releaseTransaction (clock_set_ts : Int) (set_tick : Nat) (tx : PendingTx) :
    List BoundaryRpc × Bool :=
  match resolveAnchor clock_set_ts set_tick tx.startAnchor with
  | none => ([], false)
  | some start_ts =>
    match tx.stopAnchor with
    | none => ([.startTx start_ts], true)
    | some stopAnchor =>
      match resolveAnchor clock_set_ts set_tick stopAnchor with
      | some stop_ts => ([.startTx start_ts, .stopTx stop_ts], false)
      | none => ([.startTx start_ts, .stopTx (start_ts + 1)], false)

/-! ## Connector state machine and ConnectionTimeOut

The connector state machine and coordinator sources are not part of the
sources at hand, so both are modelled from the spec. -/

inductive ConnectorState where
  | Available
  | Preparing
  | Charging
  | SuspendedEV
  | SuspendedEVSE
  | Finishing
  | Reserved
  | Unavailable
  | Faulted
deriving DecidableEq, Repr

/-- Modelled from the spec: the connector state inference, priority
top-to-bottom with the first matching rule winning. -/
def connectorState (faulted inoperative reservationActive : Bool)
    (transaction_running evse_ready plugged : Bool)
    (session_active endingGrace : Bool) : ConnectorState :=
  if faulted then .Faulted
  else if inoperative && !transaction_running then .Unavailable
  else if reservationActive && !transaction_running then .Reserved
  else if transaction_running && evse_ready && plugged then .Charging
  else if transaction_running && !evse_ready then .SuspendedEVSE
  else if transaction_running && !plugged then .SuspendedEV
  else if session_active || plugged then .Preparing
  else if endingGrace then .Finishing
  else .Available

/-- Default of the ConnectionTimeOut configuration key, in seconds. -/
def connectionTimeOutDefault : Nat := 30

/-- Modelled from the spec: the ConnectionTimeOut rule of the Transaction
Coordinator. If session.active ∧ ¬plugged ∧ ¬start.rpc.requested has held for
held_secs ≥ ConnectionTimeOut seconds, the session is silently ended;
otherwise the transaction is unchanged. No RPC flag is ever touched. -/
def connectionTimeoutStep (connectionTimeOut : Nat) (tx : Transaction)
    (plugged : Bool) (held_secs : Nat) : Transaction :=
  if tx.session.active && !plugged && !tx.start.rpc.requested
      && decide (connectionTimeOut ≤ held_secs) then
    tx.endSession
  else
    tx

/-! ## ISO-8601 date parsing (Timestamp::setTime / Time::setTime)

Time.h declares both setTime entry points; their implementation (Time.cpp) is
missing from the sources at hand, so the parser is modelled from the spec:
it accepts the first 19 characters in the shape YYYY-MM-DDTHH:MM:SS,
optionally followed by a fractional part and Z, and rejects anything else. -/

def isDigitChar (c : Char) : Bool := decide ('0' ≤ c) && decide (c ≤ '9')

def digitVal (c : Char) : Int := (c.toNat : Int) - 48

/-- Modelled from the spec: the tail of an ISO date after the first 19
characters may hold fraction digits, then optionally a terminating Z. -/
def fracTail : List Char → Bool
  | [] => true
  | c :: rest => (c == 'Z' && rest == []) || (isDigitChar c && fracTail rest)

/-- Modelled from the spec: everything after the first 19 characters is either
empty, a lone Z, or a dot-led fractional part optionally ending in Z. -/
def restOk : List Char → Bool
  | [] => true
  | c :: ds => (c == 'Z' && ds == []) || (c == '.' && fracTail ds)

/-- Modelled from the spec: the date parser behind Timestamp::setTime and
Time::setTime (Time.cpp is missing from the sources at hand). It consumes the
first 19 characters YYYY-MM-DDTHH:MM:SS, requires the tail to be an optional
fractional part and Z, and produces the broken-down timestamp with 0-based
month and day as in the internal representation. -/
def parse_iso : List Char → Option Timestamp
  | y1 :: y2 :: y3 :: y4 :: sep1 :: m1 :: m2 :: sep2 :: d1 :: d2 :: sepT ::
      h1 :: h2 :: sep3 :: n1 :: n2 :: sep4 :: s1 :: s2 :: rest =>
    if isDigitChar y1 && isDigitChar y2 && isDigitChar y3 && isDigitChar y4
        && (sep1 == '-') && isDigitChar m1 && isDigitChar m2 && (sep2 == '-')
        && isDigitChar d1 && isDigitChar d2 && (sepT == 'T')
        && isDigitChar h1 && isDigitChar h2 && (sep3 == ':')
        && isDigitChar n1 && isDigitChar n2 && (sep4 == ':')
        && isDigitChar s1 && isDigitChar s2 && restOk rest then
      some {
        year := 1000 * digitVal y1 + 100 * digitVal y2 + 10 * digitVal y3 + digitVal y4,
        month := 10 * digitVal m1 + digitVal m2 - 1,
        day := 10 * digitVal d1 + digitVal d2 - 1,
        hour := 10 * digitVal h1 + digitVal h2,
        minute := 10 * digitVal n1 + digitVal n2,
        second := 10 * digitVal s1 + digitVal s2 }
    else none
  | _ => none

/-- Modelled from the spec: Timestamp::setTime returns true on successful time
set and false if the given string is not a JSON date string; on failure the
timestamp is untouched. -/
def Timestamp.setTime (t : Timestamp) (jsonDateString : String) : Timestamp × Bool :=
  match parse_iso jsonDateString.data with
  | some parsed => (parsed, true)
  | none => (t, false)

/-- Clock state (from Core/Time.h, class Time): OCPP base time, the system
tick at the moment the base time was taken, and the validity flag. -/
structure Time where
  ocpp_basetime : Timestamp := {}
  system_basetime : Int := 0
  timeIsSet : Bool := false
deriving DecidableEq, Repr

/-- Modelled from the spec: Time::setTime parses the date string; on success
it installs the new base time, records the current tick and marks the clock
valid; on failure it leaves the whole clock state unchanged. -/
def Time.setTime (tm : Time) (jsonDateString : String) (now_tick : Int) : Time × Bool :=
  match parse_iso jsonDateString.data with
  | some parsed =>
    ({ ocpp_basetime := parsed, system_basetime := now_tick, timeIsSet := true }, true)
  | none => (tm, false)

/-- Shape predicate stated the way the claim reads: the first 19 characters
form YYYY-MM-DDTHH:MM:SS (checked positionally), optionally followed by a
fractional part and Z. To be compared with the parser. -/
def optionalFractionZ (rest : List Char) : Bool :=
  rest == [] || rest == ['Z'] ||
  (rest.take 1 == ['.'] &&
    ((rest.drop 1).all isDigitChar ||
     ((rest.drop 1).dropLast.all isDigitChar && (rest.drop 1).getLast? == some 'Z')))

/-- Shape predicate stated the way the claim reads, checked positionally on
the character list. -/
def iso19Shape (l : List Char) : Bool :=
  decide (19 ≤ l.length)
  && isDigitChar (l.getD 0 ' ') && isDigitChar (l.getD 1 ' ')
  && isDigitChar (l.getD 2 ' ') && isDigitChar (l.getD 3 ' ')
  && (l.getD 4 ' ' == '-')
  && isDigitChar (l.getD 5 ' ') && isDigitChar (l.getD 6 ' ')
  && (l.getD 7 ' ' == '-')
  && isDigitChar (l.getD 8 ' ') && isDigitChar (l.getD 9 ' ')
  && (l.getD 10 ' ' == 'T')
  && isDigitChar (l.getD 11 ' ') && isDigitChar (l.getD 12 ' ')
  && (l.getD 13 ' ' == ':')
  && isDigitChar (l.getD 14 ' ') && isDigitChar (l.getD 15 ' ')
  && (l.getD 16 ' ' == ':')
  && isDigitChar (l.getD 17 ' ') && isDigitChar (l.getD 18 ' ')
  && optionalFractionZ (l.drop 19)

/-- Variant of the shape predicate with the parser-side tail check; used as a
stepping stone between the parser and iso19Shape. -/
def iso19ShapeAux (l : List Char) : Bool :=
  decide (19 ≤ l.length)
  && isDigitChar (l.getD 0 ' ') && isDigitChar (l.getD 1 ' ')
  && isDigitChar (l.getD 2 ' ') && isDigitChar (l.getD 3 ' ')
  && (l.getD 4 ' ' == '-')
  && isDigitChar (l.getD 5 ' ') && isDigitChar (l.getD 6 ' ')
  && (l.getD 7 ' ' == '-')
  && isDigitChar (l.getD 8 ' ') && isDigitChar (l.getD 9 ' ')
  && (l.getD 10 ' ' == 'T')
  && isDigitChar (l.getD 11 ' ') && isDigitChar (l.getD 12 ' ')
  && (l.getD 13 ' ' == ':')
  && isDigitChar (l.getD 14 ' ') && isDigitChar (l.getD 15 ' ')
  && (l.getD 16 ' ' == ':')
  && isDigitChar (l.getD 17 ' ') && isDigitChar (l.getD 18 ' ')
  && restOk (l.drop 19)

end ArduinoOcpp

namespace ArduinoOcpp

/-- Helper: isSome of a Boolean-guarded some is the guard itself. -/
theorem isSome_ite_some {α : Type} (c : Bool) (a : α) :
    (if c = true then some a else none).isSome = c := by
  cases c <;> rfl

/-- Helper: the recursive fraction-tail check of the parser agrees with the
all-digits-then-optional-Z wording of the claim. -/
theorem fracTail_eq (ds : List Char) :
    fracTail ds
      = (ds.all isDigitChar
        || (ds.dropLast.all isDigitChar && ds.getLast? == some 'Z')) := by
  induction ds with
  | nil => rfl
  | cons c ds ih =>
    cases ds with
    | nil =>
      simp [fracTail, Bool.or_comm]
    | cons d ds2 =>
      rw [show fracTail (c :: d :: ds2)
            = ((c == 'Z' && ((d :: ds2 : List Char) == ([] : List Char)))
              || (isDigitChar c && fracTail (d :: ds2))) from rfl, ih]
      simp [List.dropLast_cons₂, List.getLast?_cons_cons,
        Bool.and_or_distrib_left, Bool.and_assoc]

/-- Helper: the recursive tail check of the parser agrees with the
optional-fraction-and-Z predicate taken from the claim. -/
theorem restOk_eq (rest : List Char) : restOk rest = optionalFractionZ rest := by
  cases rest with
  | nil => rfl
  | cons c ds =>
    simp [restOk, optionalFractionZ, fracTail_eq, Bool.and_or_distrib_left]

/-- Helper: iso19Shape rewritten through restOk_eq. -/
theorem iso19ShapeAux_eq (l : List Char) : iso19ShapeAux l = iso19Shape l := by
  unfold iso19ShapeAux iso19Shape
  rw [restOk_eq]

/-- Helper: the parser succeeds exactly on lists satisfying the positional
shape predicate. -/
theorem parse_iso_isSome_eq (l : List Char) : (parse_iso l).isSome = iso19Shape l := by
  rw [← iso19ShapeAux_eq]
  rcases l with _ | ⟨c0, _ | ⟨c1, _ | ⟨c2, _ | ⟨c3, _ | ⟨c4, _ | ⟨c5, _ | ⟨c6, _ | ⟨c7,
    _ | ⟨c8, _ | ⟨c9, _ | ⟨c10, _ | ⟨c11, _ | ⟨c12, _ | ⟨c13, _ | ⟨c14, _ | ⟨c15,
    _ | ⟨c16, _ | ⟨c17, _ | ⟨c18, rest⟩⟩⟩⟩⟩⟩⟩⟩⟩⟩⟩⟩⟩⟩⟩⟩⟩⟩⟩ <;>
    first
      | rfl
      | (simp only [iso19ShapeAux]
         rw [decide_eq_true (show (19 : Nat) ≤ (c0 :: c1 :: c2 :: c3 :: c4 :: c5 :: c6 ::
               c7 :: c8 :: c9 :: c10 :: c11 :: c12 :: c13 :: c14 :: c15 :: c16 :: c17 ::
               c18 :: rest).length from by simp), Bool.true_and]
         exact isSome_ite_some _ _)

/-- Claim C6: Timestamp.setTime and Time.setTime return true exactly when the
first 19 characters of the input form YYYY-MM-DDTHH:MM:SS optionally followed
by a fractional part and Z, and false for every other input; on a false
return the state is left unchanged, so in particular the clock remains
invalid if it was invalid. -/
theorem setTime_parse_spec (t : Timestamp) (tm : Time) (s : String) (now_tick : Int) :
    ((t.setTime s).2 = true ↔ iso19Shape s.data = true) ∧
    ((t.setTime s).2 = false → (t.setTime s).1 = t) ∧
    ((tm.setTime s now_tick).2 = true ↔ iso19Shape s.data = true) ∧
    ((tm.setTime s now_tick).2 = false →
      (tm.setTime s now_tick).1 = tm ∧
      (tm.setTime s now_tick).1.timeIsSet = tm.timeIsSet) := by
  have hsnd : (t.setTime s).2 = (parse_iso s.data).isSome := by
    cases hp : parse_iso s.data <;> simp [Timestamp.setTime, hp]
  have hsnd2 : (tm.setTime s now_tick).2 = (parse_iso s.data).isSome := by
    cases hp : parse_iso s.data <;> simp [Time.setTime, hp]
  have hiff := parse_iso_isSome_eq s.data
  refine ⟨by rw [hsnd, hiff], ?_, by rw [hsnd2, hiff], ?_⟩
  · intro hfalse
    cases hp : parse_iso s.data with
    | none => simp [Timestamp.setTime, hp]
    | some v => rw [hsnd, hp] at hfalse; simp at hfalse
  · intro hfalse
    cases hp : parse_iso s.data with
    | none => simp [Time.setTime, hp]
    | some v => rw [hsnd2, hp] at hfalse; simp at hfalse

/-- Claim C6 witness: a non-date string is rejected leaving both the timestamp
and the clock unchanged (clock still invalid), and a JSON date string in the
documented format is accepted. -/
theorem setTime_parse_spec_witness :
    (Timestamp.setTime {} "not a date").1 = ({} : Timestamp) ∧
    (Timestamp.setTime {} "2023-01-01T00:00:00.000Z").2 = true ∧
    (Time.setTime {} "not a date" 5).1.timeIsSet = ({} : Time).timeIsSet :=
  ⟨(setTime_parse_spec {} {} "not a date" 0).2.1 rfl,
   (setTime_parse_spec {} {} "2023-01-01T00:00:00.000Z" 0).1.mpr rfl,
   ((setTime_parse_spec {} {} "not a date" 5).2.2.2 rfl).2⟩

/-- Claim C2: for every Transaction record, the derived state predicates equal
the stated boolean combinations of its fields: isPreparing holds iff
session.active and not start.rpc.requested; isRunning holds iff
start.rpc.requested and not stop.rpc.requested; isCompleted holds iff
stop.rpc.confirmed; isAborted holds iff not start.rpc.requested and not
session.active; isActive holds iff session.active. -/
theorem transaction_state_predicates (t : Transaction) :
    (t.isPreparing = true ↔ t.session.active = true ∧ t.start.rpc.requested = false) ∧
    (t.isRunning = true ↔ t.start.rpc.requested = true ∧ t.stop.rpc.requested = false) ∧
    (t.isCompleted = true ↔ t.stop.rpc.confirmed = true) ∧
    (t.isAborted = true ↔ t.start.rpc.requested = false ∧ t.session.active = false) ∧
    (t.isActive = true ↔ t.session.active = true) := by
  simp [Transaction.isPreparing, Transaction.isRunning, Transaction.isCompleted,
    Transaction.isAborted, Transaction.isActive, RpcSync.isRequested, RpcSync.isConfirmed,
    Bool.and_eq_true, Bool.not_eq_true]

/-- Claim C7: the scalar-time infinity threshold equals the maximal scalar time
minus 400 days of seconds (400 · 86400); every scalar strictly above the
threshold denotes infinity/invalid, and every scalar at or below it (within
the saturation range of timestamp subtraction) fits in signed 32 bits. -/
theorem infinity_threshold_spec :
    INFINITY_THLD = OTIME_MAX - 400 * 86400 ∧
    INFINITY_THLD = 2112923647 ∧
    (∀ s : Int, scalarIsInfinity s = true ↔ INFINITY_THLD < s) ∧
    (∀ s : Int, scalarIsInfinity s = false → -OTIME_MAX ≤ s →
      -(2 ^ 31) < s ∧ s < 2 ^ 31) := by
  refine ⟨by decide, by decide, fun s => by simp [scalarIsInfinity], fun s hs hlo => ?_⟩
  simp only [scalarIsInfinity, decide_eq_false_iff_not, not_lt] at hs
  constructor
  · calc -(2 ^ 31) < -OTIME_MAX := by decide
    _ ≤ s := hlo
  · calc s ≤ INFINITY_THLD := hs
    _ < 2 ^ 31 := by decide

/-- Claim C7 witness: the threshold facts evaluated at the concrete scalar 5. -/
theorem infinity_threshold_spec_witness :
    -(2 ^ 31) < (5 : Int) ∧ (5 : Int) < 2 ^ 31 :=
  infinity_threshold_spec.2.2.2 5 (by decide) (by decide)

/-- Claim C9: the ChargeControlCommon constructor registers NumberOfConnectors
with value numConn − 1 when numConn ≥ 1 and with value 0 when numConn = 0;
for numConn ≥ 1 the registered value is never the constructor argument. -/
theorem number_of_connectors_registration (numConn : Nat) :
    (1 ≤ numConn → numberOfConnectorsValue numConn = numConn - 1) ∧
    (numConn = 0 → numberOfConnectorsValue numConn = 0) ∧
    (1 ≤ numConn → numberOfConnectorsValue numConn ≠ numConn) := by
  refine ⟨fun h => by simp [numberOfConnectorsValue, h], fun h => by subst h; rfl, fun h => ?_⟩
  simp [numberOfConnectorsValue, h]
  omega

/-- Claim C9 witness: the registration rule evaluated at numConn = 5 and 0. -/
theorem number_of_connectors_registration_witness :
    numberOfConnectorsValue 5 = 4 ∧ numberOfConnectorsValue 0 = 0 :=
  ⟨(number_of_connectors_registration 5).1 (by decide),
   (number_of_connectors_registration 0).2.1 rfl⟩

/-- Claim C10: OcppEchoSocket.sendTXT returns true without delivering anything
when the socket is not connected; when connected with a receive callback it
delivers the message, stamps lastRecv with the current tick, and returns the
callback result; when connected without a callback it returns false and
delivers nothing. -/
theorem echo_socket_sendTXT_spec (s : OcppEchoSocket) (out : String) (tick_ms : Nat) :
    (s.connected = false →
      s.sendTXT out tick_ms = { socket := s, returned := true, delivered := none }) ∧
    (s.connected = true → ∀ callback, s.receiveTXT = some callback →
      (s.sendTXT out tick_ms).returned = callback out ∧
      (s.sendTXT out tick_ms).delivered = some out ∧
      (s.sendTXT out tick_ms).socket.lastRecv = tick_ms ∧
      (s.sendTXT out tick_ms).socket.connected = s.connected ∧
      (s.sendTXT out tick_ms).socket.receiveTXT = s.receiveTXT) ∧
    (s.connected = true → s.receiveTXT = none →
      s.sendTXT out tick_ms = { socket := s, returned := false, delivered := none }) := by
  refine ⟨fun h => by simp [OcppEchoSocket.sendTXT, h],
    fun h callback hcb => ?_, fun h hnone => by simp [OcppEchoSocket.sendTXT, h, hnone]⟩
  simp [OcppEchoSocket.sendTXT, h, hcb]

/-- Claim C10 witness: sendTXT evaluated on a disconnected socket, on a
connected socket with a length-checking callback, and on a connected socket
with no callback. -/
theorem echo_socket_sendTXT_spec_witness :
    ((⟨false, none, 7⟩ : OcppEchoSocket).sendTXT "msg" 3
      = { socket := ⟨false, none, 7⟩, returned := true, delivered := none }) ∧
    ((⟨true, some (fun m => m.length == 3), 7⟩ : OcppEchoSocket).sendTXT "msg" 3).returned
      = ((fun (m : String) => m.length == 3) "msg") ∧
    ((⟨true, none, 7⟩ : OcppEchoSocket).sendTXT "msg" 3
      = { socket := ⟨true, none, 7⟩, returned := false, delivered := none }) :=
  ⟨(echo_socket_sendTXT_spec ⟨false, none, 7⟩ "msg" 3).1 rfl,
   ((echo_socket_sendTXT_spec ⟨true, some (fun m => m.length == 3), 7⟩ "msg" 3).2.1
      rfl (fun m => m.length == 3) rfl).1,
   (echo_socket_sendTXT_spec ⟨true, none, 7⟩ "msg" 3).2.2 rfl rfl⟩

/-- Claim C1: a pre-boot boundary event at monotonic tick event_tick is
emitted, once the wall clock is set to clock_set_ts at tick set_tick, with
timestamp clock_set_ts − (set_tick − event_tick)/1000; an event that occurred
Δ seconds before clock-set (up to sub-second tick remainder) is sent with
wall timestamp clock_set_ts − Δ, within 1 second. This holds for the
StartTransaction boundary of a still-running transaction and for the
StopTransaction boundary of an ended one. -/
theorem preboot_backdating (clock_set_ts : Int) (set_tick event_tick Δ : Nat)
    (hΔ : 1000 * Δ ≤ set_tick - event_tick)
    (hΔ2 : set_tick - event_tick < 1000 * (Δ + 1)) :
    backdate clock_set_ts set_tick event_tick = clock_set_ts - Δ ∧
    (backdate clock_set_ts set_tick event_tick - (clock_set_ts - Δ)).natAbs ≤ 1 ∧
    releaseTransaction clock_set_ts set_tick ⟨.tick event_tick, none⟩
      = ([.startTx (clock_set_ts - Δ)], true) ∧
    (∀ start_ts : Int,
      releaseTransaction clock_set_ts set_tick ⟨.wall start_ts, some (.tick event_tick)⟩
        = ([.startTx start_ts, .stopTx (clock_set_ts - Δ)], false)) := by
  have hdiv : (set_tick - event_tick) / 1000 = Δ := by omega
  have hbd : backdate clock_set_ts set_tick event_tick = clock_set_ts - Δ := by
    simp [backdate, hdiv]
  refine ⟨hbd, by simp [hbd], ?_, fun start_ts => ?_⟩
  · simp [releaseTransaction, resolveAnchor, hbd]
  · simp [releaseTransaction, resolveAnchor, hbd]

/-- Claim C1 witness: a transaction begun 7200.4 seconds (7200400 ticks)
before the clock is set to scalar 1000000 at tick 7200900 is back-dated to
1000000 − 7200. -/
theorem preboot_backdating_witness :
    backdate 1000000 7200900 500 = 1000000 - 7200 ∧
    releaseTransaction 1000000 7200900 ⟨.tick 500, none⟩
      = ([.startTx (1000000 - 7200)], true) :=
  ⟨(preboot_backdating 1000000 7200900 500 7200 (by decide) (by decide)).1,
   (preboot_backdating 1000000 7200900 500 7200 (by decide) (by decide)).2.2.1⟩

/-- Claim C3: a transaction whose start timestamp cannot be recovered after a
reboot is dropped at release: no StartTransaction and no StopTransaction RPC
is emitted and no running transaction remains, whatever its stop anchor. -/
theorem lost_start_timestamp_drop (clock_set_ts : Int) (set_tick : Nat)
    (stopAnchor : Option TsAnchor) :
    releaseTransaction clock_set_ts set_tick ⟨.lost, stopAnchor⟩ = ([], false) :=
  rfl

/-- Claim C4: a transaction with a wall-clock start timestamp whose stop
timestamp was lost across an offline reboot is released with a
StopTransaction timestamp of exactly the start timestamp plus 1 second. -/
theorem lost_stop_timestamp_min_delta (clock_set_ts : Int) (set_tick : Nat)
    (start_ts : Int) :
    releaseTransaction clock_set_ts set_tick ⟨.wall start_ts, some .lost⟩
      = ([.startTx start_ts, .stopTx (start_ts + 1)], false) :=
  rfl

/-- Claim C5: if session.active ∧ ¬connector_plugged ∧ ¬start.rpc.requested
has held for ConnectionTimeOut seconds (default 30), the transaction is
silently aborted: it becomes Aborted, neither boundary RPC flag is touched
(so no StartTransaction or StopTransaction is emitted), and the connector
state machine reports Available afterwards. -/
theorem connection_timeout_silent_abort (connectionTimeOut : Nat) (tx : Transaction)
    (held_secs : Nat)
    (hactive : tx.session.active = true)
    (hreq : tx.start.rpc.requested = false)
    (hheld : connectionTimeOut ≤ held_secs) :
    connectionTimeOutDefault = 30 ∧
    (connectionTimeoutStep connectionTimeOut tx false held_secs).isAborted = true ∧
    (connectionTimeoutStep connectionTimeOut tx false held_secs).start.rpc = tx.start.rpc ∧
    (connectionTimeoutStep connectionTimeOut tx false held_secs).stop.rpc = tx.stop.rpc ∧
    (connectionTimeoutStep connectionTimeOut tx false held_secs).start.rpc.requested
      = false ∧
    (∀ evse_ready : Bool,
      connectorState false false false
        (connectionTimeoutStep connectionTimeOut tx false held_secs).isRunning
        evse_ready false
        (connectionTimeoutStep connectionTimeOut tx false held_secs).session.active
        false = .Available) := by
  have hstep : connectionTimeoutStep connectionTimeOut tx false held_secs
      = tx.endSession := by
    simp [connectionTimeoutStep, hactive, hreq, hheld]
  refine ⟨rfl, ?_, ?_, ?_, ?_, ?_⟩ <;>
    simp [hstep, Transaction.endSession, Transaction.isAborted, Transaction.isRunning,
      RpcSync.isRequested, hreq, connectorState]

/-- Claim C5 witness: the default transaction record (active session, no
boundary requested) held unplugged for 30 seconds is aborted and the
connector reports Available. -/
theorem connection_timeout_silent_abort_witness :
    (connectionTimeoutStep 30 {} false 30).isAborted = true ∧
    connectorState false false false (connectionTimeoutStep 30 {} false 30).isRunning
      true false (connectionTimeoutStep 30 {} false 30).session.active false
      = .Available :=
  ⟨(connection_timeout_silent_abort 30 {} 30 rfl rfl (le_refl 30)).2.1,
   (connection_timeout_silent_abort 30 {} 30 rfl rfl (le_refl 30)).2.2.2.2.2 true⟩

/-- Claim C8 counterexample: a binary frame received by the client socket does
not update lastRecv, contradicting the claim that every received frame (text,
binary, ping, or pong) updates the liveness timestamp to the current tick. -/
theorem ws_bin_frame_no_liveness_update :
    clientSocketOnEvent (fun _ => true) 0 42 WStype.BIN "payload" = 0 ∧ (0 : Nat) ≠ 42 :=
  ⟨rfl, by decide⟩

/-- Claim C8 amended: the connected event and ping and pong frames always set
lastRecv to the current tick; a text frame sets it only when the receive
callback reports success; binary frames, disconnect events and unsupported
fragment events leave lastRecv unchanged. -/
theorem ws_event_liveness_update (callback : String → Bool)
    (lastRecv tick_ms : Nat) (payload : String) :
    clientSocketOnEvent callback lastRecv tick_ms WStype.CONNECTED payload = tick_ms ∧
    clientSocketOnEvent callback lastRecv tick_ms WStype.PING payload = tick_ms ∧
    clientSocketOnEvent callback lastRecv tick_ms WStype.PONG payload = tick_ms ∧
    clientSocketOnEvent callback lastRecv tick_ms WStype.TEXT payload
      = (if callback payload then tick_ms else lastRecv) ∧
    clientSocketOnEvent callback lastRecv tick_ms WStype.BIN payload = lastRecv ∧
    clientSocketOnEvent callback lastRecv tick_ms WStype.DISCONNECTED payload = lastRecv ∧
    clientSocketOnEvent callback lastRecv tick_ms WStype.FRAGMENT_TEXT_START payload
      = lastRecv :=
  ⟨rfl, rfl, rfl, rfl, rfl, rfl, rfl⟩

end ArduinoOcpp
